import Mathlib

set_option maxHeartbeats 1000000

/-!
Verification of the pledge/charge core of the framer-backend service.

The development shallowly embeds the TypeScript route handlers:
  * `computeAmountCents` — the pure amount calculator from
    `src/app/api/admin/run-charges/route.ts`;
  * `runCharges` — the charge-run orchestrator (same file), with the
    payment provider's charge call abstracted as a function argument and
    the record store embedded as in-memory lists of rows;
  * `webhookReconcile`, `sessionConfirm`, `confirmSetup` — the three
    setup-reconciliation entry points (`stripe/webhook/route.ts` and the
    two confirm routes), with provider retrievals abstracted as
    `Except`-valued functions (an `Except.error` models a thrown/failed
    provider call);
  * `createPledge` — the pledge-creation path, reduced to the campaign
    status gate and the row insert (request parsing, CORS and auth
    boilerplate are outside the modelled core).

Status fields (`status`, `setup_status`, `charge_status`) are plain
strings in the database schema and are modelled as `String`.  JavaScript
numbers holding view counts and cent amounts are integers on every code
path modelled here and are embedded as `Int` (`Math.floor (x / 1000)` is
`Int.fdiv x 1000`).  Absent/null ids are `Option` values; the JS falsy
check `!id` on a string id is modelled as `Option.isNone` (ids drawn
from the provider are non-empty strings).
-/

/-- Campaign row of the `campaigns` table, restricted to the columns the
modelled routes read or write. -/
structure Campaign where
  id : String
  name : Option String
  viewsCap : Option Int
  finalViews : Option Int
  status : String
deriving DecidableEq

/-- Pledge row of the `pledges` table, restricted to the columns the
modelled routes read or write.  `createdAt` stands for the `created_at`
column used by the most-recent-pledge fallback lookup. -/
structure Pledge where
  id : String
  campaignId : String
  createdAt : Nat
  ratePer1000Cents : Int
  capAmountCents : Option Int
  viewsCap : Option Int
  setupStatus : String
  chargeStatus : String
  stripeCustomerId : Option String
  stripePaymentMethodId : Option String
  stripePaymentIntentId : Option String
  computedViews : Option Int
  computedAmountCents : Option Int
  errorMessage : Option String
deriving DecidableEq

/-- The record store visible to the modelled routes. -/
structure DB where
  campaigns : List Campaign
  pledges : List Pledge
deriving DecidableEq

/-- Parameter record of `computeAmountCents`, mirroring the `params`
object of the TypeScript function. -/
structure AmountParams where
  finalViews : Int
  viewsCap : Int
  ratePer1000Cents : Int
  donorCapCents : Option Int
deriving DecidableEq

/-- Result record of `computeAmountCents`. -/
structure AmountResult where
  computedViews : Int
  amountCents : Int
deriving DecidableEq

/-- Embedding of `computeAmountCents` from
`src/app/api/admin/run-charges/route.ts` (lines 12–29). -/
def computeAmountCents (params : AmountParams) : AmountResult :=
  let countedViews := min params.finalViews params.viewsCap
  let units := Int.fdiv countedViews 1000
  let amount0 := units * params.ratePer1000Cents
  let amount1 :=
    match params.donorCapCents with
    | some cap => min amount0 cap
    | none => amount0
  let amount2 := if 0 < amount1 ∧ amount1 < 100 then 100 else amount1
  { computedViews := countedViews, amountCents := amount2 }

/-- Recomputation of the Amount Calculator pipeline written from the
spec's words (§4.1 steps 1–5), for comparison with the code's
`computeAmountCents`: counted views are capped by the campaign cap,
whole thousands are priced, the donor cap is applied when set, and a
non-zero sub-$1 amount is raised to 100 cents while zero stays zero.
Returns (countedViews, amountCents). -/
def amountPipelineOfSpec (finalViews viewsCap rate : Int) (donorCap : Option Int) :
    Int × Int :=
  let countedViews := min finalViews viewsCap
  let units := Int.fdiv countedViews 1000
  let base := units * rate
  let capped :=
    match donorCap with
    | some c => min base c
    | none => base
  let final := if 0 < capped ∧ capped < 100 then 100 else capped
  (countedViews, final)

/-- Failure shape of a thrown Stripe charge error, mirroring the fields
the catch block in `run-charges/route.ts` inspects. -/
structure ChargeFailure where
  message : Option String
  code : Option String
  paymentIntentId : Option String
  paymentIntentStatus : Option String
deriving DecidableEq

/-- Outcome of `stripe.paymentIntents.create` for one pledge: a
successfully confirmed intent, or a thrown error. -/
inductive ChargeResult where
  | success (intentId : String)
  | failure (f : ChargeFailure)
deriving DecidableEq

/-- Which of the four run counters one pledge's processing increments. -/
inductive RunOutcome where
  | charged
  | skipped
  | failed
  | requiresAction
deriving DecidableEq

/-- Aggregate counters returned by the charge run. -/
structure RunCounts where
  charged : Nat
  skipped : Nat
  failed : Nat
  requiresAction : Nat
deriving DecidableEq

/-- Result of a charge-run invocation (after the auth and body checks,
which are boilerplate outside the modelled core). -/
inductive RunResult where
  | campaignNotFound
  | finalViewsNotSet
  | ok (counts : RunCounts)
deriving DecidableEq

/-- Effective views cap used by the run: the campaign's `views_cap` when
it is a positive number, else the default 20000. -/
def effectiveViewsCap : Option Int → Int
  | some v => if 0 < v then v else 20000
  | none => 20000

/-- Eligibility filter of the pledge query in the charge run:
`campaign_id` matches and `setup_status = "complete"` and
`charge_status = "not_charged"`. -/
def eligible (cid : String) (p : Pledge) : Bool :=
  decide (p.campaignId = cid ∧ p.setupStatus = "complete" ∧
    p.chargeStatus = "not_charged")

/-- One iteration of the charge-run loop body for an eligible pledge
(lines 86–187 of `run-charges/route.ts`): persist the computed views and
amount, then skip a non-positive amount, fail on a missing stored
customer or payment method, otherwise attempt the off-session charge and
classify its outcome.  `charge` abstracts
`stripe.paymentIntents.create(amount, customer, payment_method, …)`. -/
def processPledge (fv vc : Int) (charge : Int → String → String → ChargeResult)
    (p : Pledge) : Pledge × RunOutcome :=
  let r := computeAmountCents ⟨fv, vc, p.ratePer1000Cents, p.capAmountCents⟩
  let p1 := { p with computedViews := some r.computedViews,
                     computedAmountCents := some r.amountCents }
  if r.amountCents ≤ 0 then
    ({ p1 with chargeStatus := "skipped" }, RunOutcome.skipped)
  else
    match p.stripeCustomerId, p.stripePaymentMethodId with
    | some cu, some pm =>
      match charge r.amountCents cu pm with
      | ChargeResult.success piId =>
        ({ p1 with chargeStatus := "charged",
                   stripePaymentIntentId := some piId,
                   errorMessage := none }, RunOutcome.charged)
      | ChargeResult.failure f =>
        if f.code = some "authentication_required" ∨
            f.paymentIntentStatus = some "requires_action" then
          ({ p1 with chargeStatus := "requires_action",
                     errorMessage := some (f.message.getD "Charge failed"),
                     stripePaymentIntentId := f.paymentIntentId },
            RunOutcome.requiresAction)
        else
          ({ p1 with chargeStatus := "failed",
                     errorMessage := some (f.message.getD "Charge failed"),
                     stripePaymentIntentId := f.paymentIntentId },
            RunOutcome.failed)
    | _, _ =>
      ({ p1 with chargeStatus := "failed",
                 errorMessage := some "Missing Stripe customer or payment method" },
        RunOutcome.failed)

/-- Bump the counter named by a run outcome. -/
def addOutcome (o : RunOutcome) (c : RunCounts) : RunCounts :=
  match o with
  | RunOutcome.charged => { c with charged := c.charged + 1 }
  | RunOutcome.skipped => { c with skipped := c.skipped + 1 }
  | RunOutcome.failed => { c with failed := c.failed + 1 }
  | RunOutcome.requiresAction => { c with requiresAction := c.requiresAction + 1 }

/-- The sequential charge-run loop over the pledge rows: pledges passing
the eligibility filter are processed and counted, all others are left
untouched.  Returns the updated rows and the aggregate counters. -/
def runPledges (cid : String) (fv vc : Int)
    (charge : Int → String → String → ChargeResult) :
    List Pledge → List Pledge × RunCounts
  | [] => ([], ⟨0, 0, 0, 0⟩)
  | p :: ps =>
    let rest := runPledges cid fv vc charge ps
    if eligible cid p then
      let pr := processPledge fv vc charge p
      (pr.1 :: rest.1, addOutcome pr.2 rest.2)
    else
      (p :: rest.1, rest.2)

/-- The post-loop campaign update: every campaign row matching the id is
set to status `"charged"`. -/
def chargeCampaign (cid : String) (c : Campaign) : Campaign :=
  if c.id = cid then { c with status := "charged" } else c

/-- Embedding of the charge-run orchestrator `POST` of
`run-charges/route.ts` from the campaign lookup onward: `.single()`
campaign lookup (exactly one row or the run is rejected), rejection when
`final_views` is null, the per-pledge loop, and the unconditional
post-loop `status = "charged"` campaign update. -/
def runCharges (cid : String) (charge : Int → String → String → ChargeResult)
    (db : DB) : RunResult × DB :=
  match db.campaigns.filter (fun c => decide (c.id = cid)) with
  | [campaign] =>
    match campaign.finalViews with
    | none => (RunResult.finalViewsNotSet, db)
    | some fv =>
      (RunResult.ok
          (runPledges cid fv (effectiveViewsCap campaign.viewsCap) charge
            db.pledges).2,
        { campaigns := db.campaigns.map (chargeCampaign cid),
          pledges := (runPledges cid fv (effectiveViewsCap campaign.viewsCap)
            charge db.pledges).1 })
  | _ => (RunResult.campaignNotFound, db)

/-- Checkout session fields read by the reconciliation routes: the
`metadata.flow` and `metadata.pledge_id` entries, the session's setup
intent id and its customer id. -/
structure Session where
  metadataFlow : Option String
  metadataPledgeId : Option String
  setupIntent : Option String
  customer : Option String
deriving DecidableEq

/-- Setup intent fields read by the reconciliation routes. -/
structure SetupIntent where
  customer : Option String
  paymentMethod : Option String
  metadataPledgeId : Option String
deriving DecidableEq

/-- The payment provider's retrieval operations.  An `Except.error msg`
models a thrown retrieval failure carrying the error message. -/
structure Provider where
  retrieveSession : String → Except String Session
  retrieveSetupIntent : String → Except String SetupIntent

/-- Outcome of a reconciliation call, mirroring the HTTP statuses the
routes return: 200 with the pledge id, 400, 409, 502. -/
inductive ReconcileOutcome where
  | ok (pledgeId : String)
  | badRequest
  | conflict
  | providerUnavailable
deriving DecidableEq

/-- Store update `from("pledges").update(...).eq("id", pid)`: apply the
row update to every pledge whose id matches. -/
def updatePledges (pid : String) (f : Pledge → Pledge) (ps : List Pledge) :
    List Pledge :=
  ps.map (fun p => if p.id = pid then f p else p)

/-- Row update recording a terminal setup failure. -/
def markSetupFailed (msg : String) (p : Pledge) : Pledge :=
  { p with setupStatus := "failed", errorMessage := some msg }

/-- Row update persisting a successful setup binding: customer id,
payment-method id, `setup_status = "complete"`, cleared error message. -/
def bindSetup (cu pm : String) (p : Pledge) : Pledge :=
  { p with stripeCustomerId := some cu, stripePaymentMethodId := some pm,
           setupStatus := "complete", errorMessage := none }

/-- Embedding of the `checkout.session.completed` branch of the webhook
handler (`src/app/api/stripe/webhook/route.ts`, lines 27–88), given the
event's session object.  A failed `setupIntents.retrieve` is caught and
recorded on the pledge as `setup_status = "failed"` with the thrown
message; in every case the route acknowledges the event. -/
def webhookReconcile (prov : Provider) (s : Session) (ps : List Pledge) :
    List Pledge :=
  match s.metadataFlow, s.metadataPledgeId with
  | some "pledge_setup", some pid =>
    match s.setupIntent with
    | none =>
      updatePledges pid
        (markSetupFailed "Missing setup_intent on checkout completion") ps
    | some siId =>
      match prov.retrieveSetupIntent siId with
      | Except.error msg => updatePledges pid (markSetupFailed msg) ps
      | Except.ok si =>
        match si.paymentMethod, s.customer with
        | some pm, some cu =>
          updatePledges pid
            (fun p => { p with stripeCustomerId := some cu,
                               stripePaymentMethodId := some pm,
                               setupStatus := "complete" }) ps
        | _, _ =>
          updatePledges pid
            (markSetupFailed
              "Missing customer or payment method on setup completion") ps
  | _, _ => ps

/-- Embedding of the session-confirm reconciliation route
(`src/unnamed/part_001` POST): resolve the checkout session, require the
pledge-setup flow metadata, then resolve the setup intent and persist
the binding or a terminal failure. -/
def sessionConfirm (prov : Provider) (sessionId : String) (ps : List Pledge) :
    ReconcileOutcome × List Pledge :=
  match prov.retrieveSession sessionId with
  | Except.error _ => (ReconcileOutcome.providerUnavailable, ps)
  | Except.ok s =>
    match s.metadataPledgeId with
    | none => (ReconcileOutcome.badRequest, ps)
    | some pid =>
      if s.metadataFlow = some "pledge_setup" then
        match s.setupIntent with
        | none =>
          (ReconcileOutcome.conflict,
            updatePledges pid
              (markSetupFailed "Missing setup_intent on checkout session") ps)
        | some siId =>
          match prov.retrieveSetupIntent siId with
          | Except.error _ => (ReconcileOutcome.providerUnavailable, ps)
          | Except.ok si =>
            match s.customer, si.paymentMethod with
            | some cu, some pm =>
              (ReconcileOutcome.ok pid, updatePledges pid (bindSetup cu pm) ps)
            | _, _ =>
              (ReconcileOutcome.conflict,
                updatePledges pid
                  (markSetupFailed
                    "Missing customer or payment method on setup completion")
                  ps)
      else (ReconcileOutcome.badRequest, ps)

/-- Most-recently-created pledge whose stored customer id matches: the
`order("created_at", descending).limit(1)` fallback lookup of the
confirm-setup route. -/
def latestByCustomer (cu : String) : List Pledge → Option Pledge
  | [] => none
  | p :: ps =>
    match latestByCustomer cu ps with
    | none => if p.stripeCustomerId = some cu then some p else none
    | some b =>
      if p.stripeCustomerId = some cu ∧ b.createdAt < p.createdAt then some p
      else some b

/-- Request body of the confirm-setup route (`src/unnamed/part_002`):
an optional session id and an optional bare setup-intent id. -/
structure ConfirmBody where
  sessionId : Option String
  setupIntent : Option String
deriving DecidableEq

/-- Second stage of the confirm-setup route, shared by the session path
and the bare-intent path: require a setup-intent id, resolve it, fill in
the customer and pledge id from the intent (then from the most-recent
pledge of the customer), and persist the binding or a failure. -/
def confirmStage2 (prov : Provider)
    (pledgeId0 customer0 setupIntentId : Option String) (ps : List Pledge) :
    ReconcileOutcome × List Pledge :=
  match setupIntentId with
  | none => (ReconcileOutcome.conflict, ps)
  | some siId =>
    match prov.retrieveSetupIntent siId with
    | Except.error _ => (ReconcileOutcome.providerUnavailable, ps)
    | Except.ok si =>
      let customer :=
        match customer0 with
        | some c => some c
        | none => si.customer
      let pledgeId1 :=
        match pledgeId0 with
        | some p => some p
        | none => si.metadataPledgeId
      let pledgeId2 :=
        match pledgeId1 with
        | some p => some p
        | none =>
          match customer with
          | some cu => (latestByCustomer cu ps).map (fun p => p.id)
          | none => none
      match pledgeId2 with
      | none => (ReconcileOutcome.conflict, ps)
      | some pid =>
        match si.paymentMethod with
        | none =>
          (ReconcileOutcome.conflict,
            updatePledges pid
              (markSetupFailed "Missing payment method on setup completion") ps)
        | some pm =>
          (ReconcileOutcome.ok pid,
            updatePledges pid
              (fun p => { p with stripeCustomerId := customer,
                                 stripePaymentMethodId := some pm,
                                 setupStatus := "complete",
                                 errorMessage := none }) ps)

/-- Embedding of the confirm-setup reconciliation route
(`src/unnamed/part_002` POST): the session path takes precedence over
the bare-intent path; both feed into `confirmStage2`. -/
def confirmSetup (prov : Provider) (body : ConfirmBody) (ps : List Pledge) :
    ReconcileOutcome × List Pledge :=
  if body.sessionId = none ∧ body.setupIntent = none then
    (ReconcileOutcome.badRequest, ps)
  else
    match body.sessionId with
    | some sid =>
      match prov.retrieveSession sid with
      | Except.error _ => (ReconcileOutcome.providerUnavailable, ps)
      | Except.ok s =>
        match s.metadataPledgeId with
        | none => (ReconcileOutcome.badRequest, ps)
        | some pid =>
          if s.metadataFlow = some "pledge_setup" then
            confirmStage2 prov (some pid) s.customer s.setupIntent ps
          else (ReconcileOutcome.badRequest, ps)
    | none => confirmStage2 prov none none body.setupIntent ps

/-- Pledge terms reaching the creation route after its field validation
(amounts already converted to integer cents). -/
structure PledgeTerms where
  campaignId : String
  name : String
  email : String
  ratePer1000Cents : Int
  capAmountCents : Option Int
deriving DecidableEq

/-- Result of a pledge-creation request. -/
inductive CreateResult where
  | campaignNotFound
  | notOpen
  | ok (pledgeId : String)
deriving DecidableEq

/-- Embedding of the pledge-creation route
(`src/app/api/pledge/create/route.ts` POST) from the campaign lookup
onward: `.single()` campaign lookup, rejection unless
`status = "open"`, snapshot of the effective views cap, row insert with
`setup_status = "pending"` and `charge_status = "not_charged"`, and the
post-insert write of the created Stripe customer id.  `newId`,
`createdAt` and `customerId` stand for the store-assigned row id and
timestamp and the provider-assigned customer id. -/
def createPledge (newId : String) (createdAt : Nat) (customerId : String)
    (terms : PledgeTerms) (db : DB) : CreateResult × DB :=
  match db.campaigns.filter (fun c => decide (c.id = terms.campaignId)) with
  | [campaign] =>
    if campaign.status = "open" then
      (CreateResult.ok newId,
        { db with pledges := db.pledges ++
            [{ id := newId, campaignId := terms.campaignId,
               createdAt := createdAt,
               ratePer1000Cents := terms.ratePer1000Cents,
               capAmountCents := terms.capAmountCents,
               viewsCap := some (effectiveViewsCap campaign.viewsCap),
               setupStatus := "pending", chargeStatus := "not_charged",
               stripeCustomerId := some customerId,
               stripePaymentMethodId := none, stripePaymentIntentId := none,
               computedViews := none, computedAmountCents := none,
               errorMessage := none }] })
    else (CreateResult.notOpen, db)
  | _ => (CreateResult.campaignNotFound, db)

/-- Total of the four aggregate counters. -/
def RunCounts.total (c : RunCounts) : Nat :=
  c.charged + c.skipped + c.failed + c.requiresAction

/-- Sample campaign with a measured final view count, for witnesses. -/
def sampleCampaign : Campaign :=
  { id := "c1", name := some "Demo", viewsCap := some 20000,
    finalViews := some 15000, status := "locked" }

/-- Sample eligible pledge of `sampleCampaign`, for witnesses. -/
def samplePledge : Pledge :=
  { id := "p1", campaignId := "c1", createdAt := 1,
    ratePer1000Cents := 500, capAmountCents := none,
    viewsCap := some 20000, setupStatus := "complete",
    chargeStatus := "not_charged", stripeCustomerId := some "cus_1",
    stripePaymentMethodId := some "pm_1", stripePaymentIntentId := none,
    computedViews := none, computedAmountCents := none,
    errorMessage := none }

/-- Sample store holding `sampleCampaign` and `samplePledge`. -/
def sampleDB : DB := { campaigns := [sampleCampaign], pledges := [samplePledge] }

/-- Charge attempt stub that always succeeds, for witnesses. -/
def chargeAlwaysOk : Int → String → String → ChargeResult :=
  fun _ _ _ => ChargeResult.success "pi_1"

/-- Store state after one sample charge run over `sampleDB`. -/
def sampleRunDB : DB := (runCharges "c1" chargeAlwaysOk sampleDB).2

/-- Sample campaign whose `final_views` is still null, for witnesses. -/
def campaignNoViews : Campaign :=
  { id := "c2", name := none, viewsCap := some 20000,
    finalViews := none, status := "open" }

/-- Sample store for the missing-final-views rejection witness. -/
def dbNoViews : DB :=
  { campaigns := [campaignNoViews],
    pledges := [{ samplePledge with campaignId := "c2" }] }

/-- Sample thrown charge failure carrying the authentication-required
code, for witnesses. -/
def authFailure : ChargeFailure :=
  { message := some "Your card requires authentication",
    code := some "authentication_required",
    paymentIntentId := some "pi_fail", paymentIntentStatus := none }

/-- Charge attempt stub that always throws the authentication-required
failure, for witnesses. -/
def chargeAuthRequired : Int → String → String → ChargeResult :=
  fun _ _ _ => ChargeResult.failure authFailure

/-- Sample pending pledge awaiting setup reconciliation. -/
def pendingPledge : Pledge :=
  { samplePledge with
    setupStatus := "pending", stripeCustomerId := none,
    stripePaymentMethodId := none }

/-- Sample completed pledge-setup checkout session. -/
def sampleSession : Session :=
  { metadataFlow := some "pledge_setup", metadataPledgeId := some "p1",
    setupIntent := some "si_1", customer := some "cus_1" }

/-- Sample resolved setup intent carrying a payment method. -/
def sampleIntent : SetupIntent :=
  { customer := some "cus_1", paymentMethod := some "pm_1",
    metadataPledgeId := some "p1" }

/-- Provider stub answering the sample session and intent ids. -/
def sampleProvider : Provider :=
  { retrieveSession := fun sid =>
      if sid = "cs_1" then Except.ok sampleSession
      else Except.error "No such checkout session",
    retrieveSetupIntent := fun i =>
      if i = "si_1" then Except.ok sampleIntent
      else Except.error "No such setup intent" }

/-- Provider stub whose setup-intent retrieval always fails while the
session retrieval still answers, for the fetch-failure scenarios. -/
def intentDownProvider : Provider :=
  { retrieveSession := fun sid =>
      if sid = "cs_1" then Except.ok sampleSession
      else Except.error "No such checkout session",
    retrieveSetupIntent := fun _ => Except.error "Stripe is unreachable" }

/-- Sample campaign already in the terminal `"charged"` status. -/
def chargedCampaign : Campaign :=
  { id := "c3", name := none, viewsCap := some 20000,
    finalViews := some 15000, status := "charged" }

/-- Sample store holding only the charged campaign. -/
def dbCharged : DB := { campaigns := [chargedCampaign], pledges := [] }

/-- Sample pledge terms addressed at the charged campaign. -/
def sampleTerms : PledgeTerms :=
  { campaignId := "c3", name := "Dana", email := "dana@example.org",
    ratePer1000Cents := 500, capAmountCents := none }
/-- Charge status string persisted for each run outcome. -/
def statusOfOutcome : RunOutcome → String
  | RunOutcome.charged => "charged"
  | RunOutcome.skipped => "skipped"
  | RunOutcome.failed => "failed"
  | RunOutcome.requiresAction => "requires_action"

/-- C1: for non-negative finalViews, positive viewsCap, positive
ratePer1000Cents and a nullable positive donorCapCents, the calculator
returns countedViews = min(finalViews, viewsCap) and an amount equal to
the spec's pipeline: floor(countedViews/1000)·rate, then min with the
donor cap when set, then a non-zero amount below 100 is replaced by 100
while an exact zero stays 0. -/
theorem computeAmount_matches_spec (fv vc rate : Int) (cap : Option Int)
    (h1 : 0 ≤ fv) (h2 : 0 < vc) (h3 : 0 < rate)
    (h4 : ∀ c, cap = some c → 0 < c) :
    (computeAmountCents ⟨fv, vc, rate, cap⟩).computedViews = min fv vc ∧
      (computeAmountCents ⟨fv, vc, rate, cap⟩).amountCents
        = (amountPipelineOfSpec fv vc rate cap).2 := by
  cases cap <;> exact ⟨rfl, rfl⟩

/-- Witness for C1 at the spec's Scenario D input: finalViews = 30000,
viewsCap = 20000, rate = 500, donorCap = 6000. -/
theorem computeAmount_matches_spec_witness :
    (computeAmountCents ⟨30000, 20000, 500, some 6000⟩).computedViews
        = min 30000 20000 ∧
      (computeAmountCents ⟨30000, 20000, 500, some 6000⟩).amountCents
        = (amountPipelineOfSpec 30000 20000 500 (some 6000)).2 :=
  computeAmount_matches_spec 30000 20000 500 (some 6000) (by decide) (by decide)
    (by decide) (fun c hc => by injection hc with h; omega)

/-- C2 counterexample: with finalViews = 1000, viewsCap = 20000,
rate = 1000 and donorCapCents = 50 (a set positive integer), the raw
amount 1000 is capped to 50 by the donor cap but the $1-minimum step
then raises it to 100, which exceeds the donor cap — so the returned
amountCents is not ≤ donorCapCents. -/
theorem donorCap_exceeded_counterexample :
    0 ≤ (1000 : Int) ∧ 0 < (20000 : Int) ∧ 0 < (1000 : Int) ∧ 0 < (50 : Int) ∧
      ¬ (computeAmountCents ⟨1000, 20000, 1000, some 50⟩).amountCents ≤ 50 := by
  decide

/-- C2 (amended): the donor cap is a hard ceiling whenever it is at
least 100 cents — which the pledge-creation validation guarantees
(cap_amount ≥ $1) — since the minimum-charge step can only raise an
amount to exactly 100. -/
theorem donorCap_is_ceiling_from_100 (fv vc rate c : Int) (hc : 100 ≤ c) :
    (computeAmountCents ⟨fv, vc, rate, some c⟩).amountCents ≤ c := by
  unfold computeAmountCents
  simp only
  split
  · exact hc
  · exact min_le_right _ _

/-- Witness for the amended C2 at Scenario D: donorCap = 6000 bounds the
returned amount. -/
theorem donorCap_is_ceiling_from_100_witness :
    (computeAmountCents ⟨30000, 20000, 500, some 6000⟩).amountCents ≤ 6000 :=
  donorCap_is_ceiling_from_100 30000 20000 500 6000 (by decide)


theorem runPledges_nil (cid : String) (fv vc : Int)
    (charge : Int → String → String → ChargeResult) :
    runPledges cid fv vc charge [] = ([], ⟨0, 0, 0, 0⟩) := rfl

theorem runPledges_cons (cid : String) (fv vc : Int)
    (charge : Int → String → String → ChargeResult) (p : Pledge)
    (ps : List Pledge) :
    runPledges cid fv vc charge (p :: ps) =
      if eligible cid p then
        ((processPledge fv vc charge p).1 :: (runPledges cid fv vc charge ps).1,
          addOutcome (processPledge fv vc charge p).2
            (runPledges cid fv vc charge ps).2)
      else
        (p :: (runPledges cid fv vc charge ps).1,
          (runPledges cid fv vc charge ps).2) := rfl

theorem processPledge_fst_chargeStatus (fv vc : Int)
    (charge : Int → String → String → ChargeResult) (p : Pledge) :
    (processPledge fv vc charge p).1.chargeStatus
      = statusOfOutcome (processPledge fv vc charge p).2 := by
  simp only [processPledge]
  split
  · rfl
  · split
    · split
      · rfl
      · split
        · rfl
        · rfl
    · rfl

theorem processPledge_chargeStatus (fv vc : Int)
    (charge : Int → String → String → ChargeResult) (p : Pledge) :
    (processPledge fv vc charge p).1.chargeStatus = "charged" ∨
    (processPledge fv vc charge p).1.chargeStatus = "skipped" ∨
    (processPledge fv vc charge p).1.chargeStatus = "failed" ∨
    (processPledge fv vc charge p).1.chargeStatus = "requires_action" := by
  rw [processPledge_fst_chargeStatus]
  cases (processPledge fv vc charge p).2 <;> simp [statusOfOutcome]

theorem eligible_false_of_status (cid : String) (q : Pledge)
    (h : q.chargeStatus ≠ "not_charged") : eligible cid q = false := by
  unfold eligible
  simp only [decide_eq_false_iff_not]
  intro hq
  exact h hq.2.2

theorem processPledge_resolved (fv vc : Int)
    (charge : Int → String → String → ChargeResult) (p : Pledge) :
    (processPledge fv vc charge p).1.chargeStatus ≠ "not_charged" := by
  rw [processPledge_fst_chargeStatus]
  cases (processPledge fv vc charge p).2 <;> simp [statusOfOutcome]

theorem runPledges_fst (cid : String) (fv vc : Int)
    (charge : Int → String → String → ChargeResult) (ps : List Pledge) :
    (runPledges cid fv vc charge ps).1 =
      ps.map (fun p =>
        if eligible cid p then (processPledge fv vc charge p).1 else p) := by
  induction ps with
  | nil => rfl
  | cons p ps ih =>
    rw [runPledges_cons, List.map_cons]
    by_cases he : eligible cid p
    · rw [if_pos he, if_pos he]
      dsimp only
      rw [ih]
    · rw [if_neg he, if_neg he]
      dsimp only
      rw [ih]

theorem runPledges_out_ineligible (cid : String) (fv vc : Int)
    (charge : Int → String → String → ChargeResult) (ps : List Pledge) :
    ∀ q ∈ (runPledges cid fv vc charge ps).1, eligible cid q = false := by
  intro q hq
  rw [runPledges_fst] at hq
  obtain ⟨p, hp, rfl⟩ := List.mem_map.mp hq
  by_cases he : eligible cid p
  · rw [if_pos he]
    exact eligible_false_of_status cid _ (processPledge_resolved fv vc charge p)
  · rw [if_neg he]
    simpa using he

theorem runPledges_no_eligible (cid : String) (fv vc : Int)
    (charge : Int → String → String → ChargeResult) (ps : List Pledge)
    (h : ∀ p ∈ ps, eligible cid p = false) :
    runPledges cid fv vc charge ps = (ps, ⟨0, 0, 0, 0⟩) := by
  induction ps with
  | nil => rfl
  | cons p ps ih =>
    rw [runPledges_cons]
    have hp : eligible cid p = false := h p (List.mem_cons_self p ps)
    rw [if_neg (by simp [hp])]
    rw [ih (fun q hq => h q (List.mem_cons_of_mem p hq))]

theorem addOutcome_total (o : RunOutcome) (c : RunCounts) :
    (addOutcome o c).total = c.total + 1 := by
  cases o <;> simp [addOutcome, RunCounts.total] <;> omega

theorem runPledges_total (cid : String) (fv vc : Int)
    (charge : Int → String → String → ChargeResult) (ps : List Pledge) :
    ((runPledges cid fv vc charge ps).2).total =
      (ps.filter (eligible cid)).length := by
  induction ps with
  | nil => rfl
  | cons p ps ih =>
    rw [runPledges_cons, List.filter_cons]
    by_cases he : eligible cid p
    · rw [if_pos he, if_pos he]
      dsimp only
      rw [addOutcome_total, ih, List.length_cons]
    · rw [if_neg he, if_neg he]
      dsimp only
      rw [ih]

theorem chargeCampaign_id (cid : String) (c : Campaign) :
    (chargeCampaign cid c).id = c.id := by
  unfold chargeCampaign
  split <;> rfl

theorem chargeCampaign_idem (cid : String) (c : Campaign) :
    chargeCampaign cid (chargeCampaign cid c) = chargeCampaign cid c := by
  by_cases h : c.id = cid <;> simp [chargeCampaign, h]

theorem filter_map_chargeCampaign (cid : String) (cs : List Campaign) :
    (cs.map (chargeCampaign cid)).filter (fun c => decide (c.id = cid)) =
      (cs.filter (fun c => decide (c.id = cid))).map (chargeCampaign cid) := by
  induction cs with
  | nil => rfl
  | cons c cs ih =>
    rw [List.map_cons, List.filter_cons, List.filter_cons]
    by_cases h : c.id = cid
    · rw [if_pos (by simpa [chargeCampaign_id] using h),
        if_pos (by simpa using h), List.map_cons, ih]
    · rw [if_neg (by simpa [chargeCampaign_id] using h),
        if_neg (by simpa using h), ih]

theorem map_chargeCampaign_idem (cid : String) (cs : List Campaign) :
    (cs.map (chargeCampaign cid)).map (chargeCampaign cid) =
      cs.map (chargeCampaign cid) := by
  induction cs with
  | nil => rfl
  | cons c cs ih => simp only [List.map_cons, chargeCampaign_idem, ih]

/-- C5: when the campaign's `final_views` is null, the charge run is
rejected with the hard final-views failure and the store is returned
unchanged — no pledge is mutated and no charge is attempted. -/
theorem chargeRun_rejected_without_finalViews (cid : String)
    (charge : Int → String → String → ChargeResult) (db : DB) (c : Campaign)
    (hc : db.campaigns.filter (fun x => decide (x.id = cid)) = [c])
    (hfv : c.finalViews = none) :
    runCharges cid charge db = (RunResult.finalViewsNotSet, db) := by
  unfold runCharges
  rw [hc]
  simp [hfv]

/-- Witness for C5: a campaign with null `final_views` and one pledge;
the run is rejected and the store is unchanged. -/
theorem chargeRun_rejected_without_finalViews_witness :
    runCharges "c2" chargeAlwaysOk dbNoViews =
      (RunResult.finalViewsNotSet, dbNoViews) :=
  chargeRun_rejected_without_finalViews "c2" chargeAlwaysOk dbNoViews
    campaignNoViews (by decide) rfl

/-- C3: after a charge run completes with aggregate counts, every pledge
row that entered the run eligible (setup complete and not charged) ends
in exactly one of the four resolved charge statuses — none remains
`"not_charged"`. -/
theorem chargeRun_resolves_eligible (cid : String)
    (charge : Int → String → String → ChargeResult) (db : DB)
    (counts : RunCounts) (db2 : DB) (i : Nat) (p q : Pledge)
    (h : runCharges cid charge db = (RunResult.ok counts, db2))
    (hp : db.pledges[i]? = some p) (hq : db2.pledges[i]? = some q)
    (he : eligible cid p = true) :
    q.chargeStatus = "charged" ∨ q.chargeStatus = "skipped" ∨
      q.chargeStatus = "failed" ∨ q.chargeStatus = "requires_action" := by
  unfold runCharges at h
  split at h
  · split at h
    · simp at h
    · rename_i campaign heq ofv fv hfv
      rw [Prod.mk.injEq] at h
      have hpl : db2.pledges =
          db.pledges.map (fun r =>
            if eligible cid r then
              (processPledge fv (effectiveViewsCap campaign.viewsCap) charge
                r).1
            else r) := by
        conv_lhs => rw [← h.2]
        exact runPledges_fst cid fv (effectiveViewsCap campaign.viewsCap)
          charge db.pledges
      rw [hpl, List.getElem?_map, hp, Option.map_some'] at hq
      injection hq with hq
      rw [← hq, if_pos he]
      exact processPledge_chargeStatus fv (effectiveViewsCap campaign.viewsCap)
        charge p
  · simp at h

/-- Witness for C3: the eligible `samplePledge` ends resolved after the
sample run. -/
theorem chargeRun_resolves_eligible_witness :
    (sampleRunDB.pledges.headD samplePledge).chargeStatus = "charged" ∨
      (sampleRunDB.pledges.headD samplePledge).chargeStatus = "skipped" ∨
      (sampleRunDB.pledges.headD samplePledge).chargeStatus = "failed" ∨
      (sampleRunDB.pledges.headD samplePledge).chargeStatus =
        "requires_action" :=
  chargeRun_resolves_eligible "c1" chargeAlwaysOk sampleDB ⟨1, 0, 0, 0⟩
    sampleRunDB 0 samplePledge (sampleRunDB.pledges.headD samplePledge)
    (by decide) (by decide) (by decide) (by decide)

/-- C10: the aggregate counts of a completed charge run partition the
eligible pledges — their sum equals the number of pledge rows matching
the eligibility filter at loop start. -/
theorem chargeRun_counts_partition (cid : String)
    (charge : Int → String → String → ChargeResult) (db : DB)
    (counts : RunCounts) (db2 : DB)
    (h : runCharges cid charge db = (RunResult.ok counts, db2)) :
    counts.charged + counts.skipped + counts.failed + counts.requiresAction
      = (db.pledges.filter (eligible cid)).length := by
  unfold runCharges at h
  split at h
  · split at h
    · simp at h
    · rename_i campaign heq ofv fv hfv
      rw [Prod.mk.injEq] at h
      have h1 := h.1
      injection h1 with h1
      rw [← h1]
      have ht := runPledges_total cid fv (effectiveViewsCap campaign.viewsCap)
        charge db.pledges
      simpa [RunCounts.total] using ht
  · simp at h

/-- Witness for C10: the sample run charges its one eligible pledge and
the counts sum to the one eligible row. -/
theorem chargeRun_counts_partition_witness :
    (1 : Nat) + 0 + 0 + 0 = (sampleDB.pledges.filter (eligible "c1")).length :=
  chargeRun_counts_partition "c1" chargeAlwaysOk sampleDB ⟨1, 0, 0, 0⟩
    sampleRunDB (by decide)

/-- C4: a completed charge run leaves every matching campaign row in
status `"charged"` regardless of per-pledge outcomes, and an immediately
repeated run against the resulting store is accepted, finds zero
eligible pledges, reports all-zero aggregate counts, and leaves the
store unchanged. -/
theorem chargeRun_terminal_idem (cid : String)
    (charge charge2 : Int → String → String → ChargeResult) (db : DB)
    (counts : RunCounts) (db2 : DB)
    (h : runCharges cid charge db = (RunResult.ok counts, db2)) :
    (∀ c ∈ db2.campaigns, c.id = cid → c.status = "charged") ∧
      runCharges cid charge2 db2 = (RunResult.ok ⟨0, 0, 0, 0⟩, db2) := by
  unfold runCharges at h
  split at h
  · split at h
    · simp at h
    · rename_i campaign heq ofv fv hfv
      rw [Prod.mk.injEq] at h
      have hdb : db2 =
          { campaigns := db.campaigns.map (chargeCampaign cid),
            pledges := (runPledges cid fv (effectiveViewsCap campaign.viewsCap)
              charge db.pledges).1 } := h.2.symm
      have hcs : db2.campaigns = db.campaigns.map (chargeCampaign cid) := by
        rw [hdb]
      have hpl : db2.pledges =
          (runPledges cid fv (effectiveViewsCap campaign.viewsCap) charge
            db.pledges).1 := by
        rw [hdb]
      have hcid : campaign.id = cid := by
        have hm : campaign ∈ db.campaigns.filter (fun x => decide (x.id = cid)) := by
          rw [heq]
          exact List.mem_singleton.mpr rfl
        simpa using List.of_mem_filter hm
      constructor
      · intro c hcmem hcidc
        rw [hcs] at hcmem
        obtain ⟨w, hw, rfl⟩ := List.mem_map.mp hcmem
        rw [chargeCampaign_id] at hcidc
        unfold chargeCampaign
        rw [if_pos hcidc]
      · have hfil2 : db2.campaigns.filter (fun x => decide (x.id = cid)) =
            [chargeCampaign cid campaign] := by
          rw [hcs, filter_map_chargeCampaign, heq]
          rfl
        have hfv2 : (chargeCampaign cid campaign).finalViews = some fv := by
          unfold chargeCampaign
          rw [if_pos hcid]
          exact hfv
        have hinel : ∀ r ∈ db2.pledges, eligible cid r = false := by
          rw [hpl]
          exact runPledges_out_ineligible cid fv
            (effectiveViewsCap campaign.viewsCap) charge db.pledges
        unfold runCharges
        simp only [hfil2, hfv2]
        rw [runPledges_no_eligible cid fv
          (effectiveViewsCap (chargeCampaign cid campaign).viewsCap) charge2
          db2.pledges hinel]
        dsimp only
        rw [hcs, map_chargeCampaign_idem, ← hcs]
  · simp at h

/-- Witness for C4: after the sample run, the campaign row is charged
and a second run returns all-zero counts with the store unchanged. -/
theorem chargeRun_terminal_idem_witness :
    (∀ c ∈ sampleRunDB.campaigns, c.id = "c1" → c.status = "charged") ∧
      runCharges "c1" chargeAlwaysOk sampleRunDB =
        (RunResult.ok ⟨0, 0, 0, 0⟩, sampleRunDB) :=
  chargeRun_terminal_idem "c1" chargeAlwaysOk chargeAlwaysOk sampleDB
    ⟨1, 0, 0, 0⟩ sampleRunDB (by decide)

/-- C6: when the charge attempt for an eligible pledge throws, the
failure is classified by the authentication-required signal (explicit
code `"authentication_required"` or payment-intent status
`"requires_action"`): with the signal the pledge ends in
`charge_status = "requires_action"` and counts toward requiresAction,
otherwise in `"failed"` counting toward failed; in both cases the
partial payment-intent reference and the failure message are stored. -/
theorem chargeFailure_classification (fv vc : Int)
    (charge : Int → String → String → ChargeResult) (p : Pledge)
    (cu pm : String) (f : ChargeFailure)
    (hcu : p.stripeCustomerId = some cu)
    (hpm : p.stripePaymentMethodId = some pm)
    (hamt : 0 < (computeAmountCents
      ⟨fv, vc, p.ratePer1000Cents, p.capAmountCents⟩).amountCents)
    (hch : charge (computeAmountCents
        ⟨fv, vc, p.ratePer1000Cents, p.capAmountCents⟩).amountCents cu pm =
      ChargeResult.failure f) :
    (processPledge fv vc charge p).1.chargeStatus =
        (if f.code = some "authentication_required" ∨
            f.paymentIntentStatus = some "requires_action"
          then "requires_action" else "failed") ∧
      (processPledge fv vc charge p).1.stripePaymentIntentId =
        f.paymentIntentId ∧
      (processPledge fv vc charge p).1.errorMessage =
        some (f.message.getD "Charge failed") ∧
      (processPledge fv vc charge p).2 =
        (if f.code = some "authentication_required" ∨
            f.paymentIntentStatus = some "requires_action"
          then RunOutcome.requiresAction else RunOutcome.failed) := by
  have hle : ¬ (computeAmountCents
      ⟨fv, vc, p.ratePer1000Cents, p.capAmountCents⟩).amountCents ≤ 0 :=
    not_le.mpr hamt
  simp only [processPledge, if_neg hle, hcu, hpm, hch]
  by_cases hna : f.code = some "authentication_required" ∨
      f.paymentIntentStatus = some "requires_action"
  · simp [if_pos hna]
  · simp [if_neg hna]

/-- Witness for C6 at a concrete authentication-required failure. -/
theorem chargeFailure_classification_witness :
    (processPledge 15000 20000 chargeAuthRequired samplePledge).1.chargeStatus =
        (if authFailure.code = some "authentication_required" ∨
            authFailure.paymentIntentStatus = some "requires_action"
          then "requires_action" else "failed") ∧
      (processPledge 15000 20000 chargeAuthRequired
          samplePledge).1.stripePaymentIntentId = authFailure.paymentIntentId ∧
      (processPledge 15000 20000 chargeAuthRequired
          samplePledge).1.errorMessage =
        some (authFailure.message.getD "Charge failed") ∧
      (processPledge 15000 20000 chargeAuthRequired samplePledge).2 =
        (if authFailure.code = some "authentication_required" ∨
            authFailure.paymentIntentStatus = some "requires_action"
          then RunOutcome.requiresAction else RunOutcome.failed) :=
  chargeFailure_classification 15000 20000 chargeAuthRequired samplePledge
    "cus_1" "pm_1" authFailure rfl rfl (by decide) rfl

/-- C7 counterexample: when the setup intent cannot be fetched, the
webhook-triggered reconciliation does mutate pledge state — the pending
pledge is moved to `setup_status = "failed"` (and the event is
acknowledged rather than failed as provider-unavailable). -/
theorem webhook_mutates_on_intent_fetch_failure :
    pendingPledge.setupStatus = "pending" ∧
      webhookReconcile intentDownProvider sampleSession [pendingPledge] ≠
        [pendingPledge] ∧
      ((webhookReconcile intentDownProvider sampleSession
          [pendingPledge]).headD pendingPledge).setupStatus = "failed" := by
  decide

/-- C7 (amended): for the client-confirmed reconciliation invocations
(the session-confirm route, and the confirm-setup route on both its
session path and its bare-intent path), a setup-intent fetch failure
makes the call fail with the provider-unavailable outcome without
mutating any pledge state; the webhook-triggered invocation instead
records `setup_status = "failed"` on the pledge. -/
theorem confirm_intent_fetch_failure_no_mutation (prov : Provider)
    (sid siId pid msg : String) (s : Session) (ps : List Pledge)
    (hs : prov.retrieveSession sid = Except.ok s)
    (hpid : s.metadataPledgeId = some pid)
    (hflow : s.metadataFlow = some "pledge_setup")
    (hsi : s.setupIntent = some siId)
    (hfail : prov.retrieveSetupIntent siId = Except.error msg) :
    sessionConfirm prov sid ps = (ReconcileOutcome.providerUnavailable, ps) ∧
      confirmSetup prov ⟨some sid, none⟩ ps =
        (ReconcileOutcome.providerUnavailable, ps) ∧
      confirmSetup prov ⟨none, some siId⟩ ps =
        (ReconcileOutcome.providerUnavailable, ps) := by
  constructor
  · simp [sessionConfirm, hs, hpid, hflow, hsi, hfail]
  constructor
  · simp [confirmSetup, confirmStage2, hs, hpid, hflow, hsi, hfail]
  · simp [confirmSetup, confirmStage2, hfail]

/-- Witness for the amended C7 at the sample session with an unreachable
setup-intent endpoint. -/
theorem confirm_intent_fetch_failure_no_mutation_witness :
    sessionConfirm intentDownProvider "cs_1" [pendingPledge] =
        (ReconcileOutcome.providerUnavailable, [pendingPledge]) ∧
      confirmSetup intentDownProvider ⟨some "cs_1", none⟩ [pendingPledge] =
        (ReconcileOutcome.providerUnavailable, [pendingPledge]) ∧
      confirmSetup intentDownProvider ⟨none, some "si_1"⟩ [pendingPledge] =
        (ReconcileOutcome.providerUnavailable, [pendingPledge]) :=
  confirm_intent_fetch_failure_no_mutation intentDownProvider "cs_1" "si_1"
    "p1" "Stripe is unreachable" sampleSession [pendingPledge] rfl rfl rfl rfl
    rfl

theorem bindSetup_id (cu pm : String) (p : Pledge) :
    (bindSetup cu pm p).id = p.id := rfl

theorem bindSetup_idem (cu pm : String) (p : Pledge) :
    bindSetup cu pm (bindSetup cu pm p) = bindSetup cu pm p := rfl

theorem updatePledges_idem (pid : String) (f : Pledge → Pledge)
    (hid : ∀ p, (f p).id = p.id) (hff : ∀ p, f (f p) = f p)
    (ps : List Pledge) :
    updatePledges pid f (updatePledges pid f ps) = updatePledges pid f ps := by
  induction ps with
  | nil => rfl
  | cons p ps ih =>
    simp only [updatePledges, List.map_cons] at ih ⊢
    congr 1
    by_cases h : p.id = pid
    · rw [if_pos h, if_pos (by rw [hid]; exact h)]
      exact hff p
    · rw [if_neg h, if_neg h]

theorem updatePledges_length (pid : String) (f : Pledge → Pledge)
    (ps : List Pledge) :
    (updatePledges pid f ps).length = ps.length := by
  simp [updatePledges]

/-- C8: setup reconciliation is idempotent — with the provider already
reporting the issued payment method for the session's setup intent,
invoking reconciliation a second time with the same session id (on
either confirm route) reproduces the first call's result exactly; the
call succeeds with the located pledge id, creates no pledge rows (the
row count is unchanged), and every row with the target pledge id ends in
`setup_status = "complete"` with the resolved customer and
payment-method ids stored. -/
theorem setupReconcile_idem (prov : Provider) (sid pid siId cu pm : String)
    (s : Session) (si : SetupIntent) (ps : List Pledge)
    (hs : prov.retrieveSession sid = Except.ok s)
    (hpid : s.metadataPledgeId = some pid)
    (hflow : s.metadataFlow = some "pledge_setup")
    (hsi : s.setupIntent = some siId)
    (hcu : s.customer = some cu)
    (hint : prov.retrieveSetupIntent siId = Except.ok si)
    (hpm : si.paymentMethod = some pm) :
    sessionConfirm prov sid (sessionConfirm prov sid ps).2 =
        sessionConfirm prov sid ps ∧
      (sessionConfirm prov sid ps).1 = ReconcileOutcome.ok pid ∧
      (sessionConfirm prov sid ps).2.length = ps.length ∧
      confirmSetup prov ⟨some sid, none⟩
          (confirmSetup prov ⟨some sid, none⟩ ps).2 =
        confirmSetup prov ⟨some sid, none⟩ ps ∧
      ∀ q ∈ (sessionConfirm prov sid ps).2, q.id = pid →
        q.setupStatus = "complete" ∧ q.stripeCustomerId = some cu ∧
          q.stripePaymentMethodId = some pm := by
  have key : ∀ qs, sessionConfirm prov sid qs =
      (ReconcileOutcome.ok pid, updatePledges pid (bindSetup cu pm) qs) := by
    intro qs
    simp [sessionConfirm, hs, hpid, hflow, hsi, hcu, hint, hpm]
  have key2 : ∀ qs, confirmSetup prov ⟨some sid, none⟩ qs =
      (ReconcileOutcome.ok pid, updatePledges pid (bindSetup cu pm) qs) := by
    intro qs
    simp [confirmSetup, confirmStage2, hs, hpid, hflow, hsi, hcu, hint, hpm]
    rfl
  have hupd := updatePledges_idem pid (bindSetup cu pm) (bindSetup_id cu pm)
    (bindSetup_idem cu pm)
  refine ⟨?_, ?_, ?_, ?_, ?_⟩
  · rw [key, key]
    exact congrArg (fun l => (ReconcileOutcome.ok pid, l)) (hupd ps)
  · rw [key]
  · rw [key]
    exact updatePledges_length pid (bindSetup cu pm) ps
  · rw [key2, key2]
    exact congrArg (fun l => (ReconcileOutcome.ok pid, l)) (hupd ps)
  · intro q hq hqid
    have hq2 : q ∈ updatePledges pid (bindSetup cu pm) ps := by
      rw [key ps] at hq
      exact hq
    unfold updatePledges at hq2
    obtain ⟨w, hw, rfl⟩ := List.mem_map.mp hq2
    by_cases h : w.id = pid
    · simp [h, bindSetup]
    · rw [if_neg h] at hqid ⊢
      exact absurd hqid h

/-- Witness for C8 at the sample provider, session and pending pledge. -/
theorem setupReconcile_idem_witness :
    sessionConfirm sampleProvider "cs_1"
          (sessionConfirm sampleProvider "cs_1" [pendingPledge]).2 =
        sessionConfirm sampleProvider "cs_1" [pendingPledge] ∧
      (sessionConfirm sampleProvider "cs_1" [pendingPledge]).1 =
        ReconcileOutcome.ok "p1" ∧
      (sessionConfirm sampleProvider "cs_1" [pendingPledge]).2.length =
        [pendingPledge].length ∧
      confirmSetup sampleProvider ⟨some "cs_1", none⟩
          (confirmSetup sampleProvider ⟨some "cs_1", none⟩ [pendingPledge]).2 =
        confirmSetup sampleProvider ⟨some "cs_1", none⟩ [pendingPledge] ∧
      ∀ q ∈ (sessionConfirm sampleProvider "cs_1" [pendingPledge]).2,
        q.id = "p1" →
          q.setupStatus = "complete" ∧ q.stripeCustomerId = some "cus_1" ∧
            q.stripePaymentMethodId = some "pm_1" :=
  setupReconcile_idem sampleProvider "cs_1" "p1" "si_1" "cus_1" "pm_1"
    sampleSession sampleIntent [pendingPledge] rfl rfl rfl rfl rfl rfl rfl

/-- C9 counterexample: against a campaign already in status `"charged"`
(with `final_views` set), a charge-run request is not rejected — the run
is accepted and returns a success result with aggregate counts. -/
theorem chargedCampaign_run_not_rejected :
    chargedCampaign.status = "charged" ∧
      (runCharges "c3" chargeAlwaysOk dbCharged).1 =
        RunResult.ok ⟨0, 0, 0, 0⟩ := by
  decide

/-- C9 (amended): once a campaign's status is `"charged"`, creating a
new pledge against it is rejected without mutating any record; a
charge-run request against it, however, is not rejected — whenever its
`final_views` is set the run is accepted and completes with aggregate
counts (re-running over any still-eligible pledges). -/
theorem charged_campaign_create_rejected_run_accepted (newId : String)
    (createdAt : Nat) (customerId : String) (terms : PledgeTerms) (db : DB)
    (c : Campaign) (charge : Int → String → String → ChargeResult) (fv : Int)
    (hc : db.campaigns.filter (fun x => decide (x.id = terms.campaignId)) = [c])
    (hst : c.status = "charged") (hfv : c.finalViews = some fv) :
    createPledge newId createdAt customerId terms db =
        (CreateResult.notOpen, db) ∧
      ∃ counts db2, runCharges terms.campaignId charge db =
        (RunResult.ok counts, db2) := by
  constructor
  · unfold createPledge
    rw [hc]
    simp [hst]
  · refine ⟨(runPledges terms.campaignId fv (effectiveViewsCap c.viewsCap)
        charge db.pledges).2,
      { campaigns := db.campaigns.map (chargeCampaign terms.campaignId),
        pledges := (runPledges terms.campaignId fv (effectiveViewsCap
          c.viewsCap) charge db.pledges).1 }, ?_⟩
    unfold runCharges
    rw [hc]
    simp [hfv]

/-- Witness for the amended C9 at the charged sample campaign. -/
theorem charged_campaign_create_rejected_run_accepted_witness :
    createPledge "p9" 9 "cus_9" sampleTerms dbCharged =
        (CreateResult.notOpen, dbCharged) ∧
      ∃ counts db2, runCharges sampleTerms.campaignId chargeAlwaysOk dbCharged =
        (RunResult.ok counts, db2) :=
  charged_campaign_create_rejected_run_accepted "p9" 9 "cus_9" sampleTerms
    dbCharged chargedCampaign chargeAlwaysOk 15000 (by decide) rfl rfl
